import Mathlib

/-!
Verification of the TaalQuest scenario-generation pipeline.

This file gives a shallow embedding, in Lean 4, of the parts of the
repository that the specification talks about:

* the speech cache and synthesizer (`server/openai_client.py`,
  `src/taalquest/tts_generator.py`),
* the script requester (`src/taalquest/script_generator.py`,
  `server/openai_client.py`),
* the scenario orchestrator (`src/taalquest/main.py`, `server/app.py`),
* the playback sequencer (`src/taalquest/audio_player.py`).

External collaborators (the chat-completion backend, the speech backend,
`hashlib.md5`, `json.loads`, `random.choice`, `random.sample`,
`random.randint`) are passed in as function parameters: they are opaque
text-in/text-out functions from the point of view of this repository, and
every theorem below holds for every possible behaviour of those functions
unless it explicitly fixes one.  Python exceptions are modelled with
`Except String`; the mutable object state of each component is threaded
explicitly.
-/

namespace TaalQuest

/-! ## A small JSON value model (the shape of `json.loads` output) -/

inductive Json where
  | null : Json
  | bool (b : Bool) : Json
  | num (n : Int) : Json
  | str (s : String) : Json
  | arr (elems : List Json) : Json
  | obj (fields : List (String × Json)) : Json

/-- Python `d[key]` read on a JSON object: first binding of `key`
(objects produced by `json.loads` carry each key at most once). -/
def Json.lookupKey : Json → String → Option Json
  | .obj fields, key => fields.lookup key
  | _, _ => none

def Json.asString : Json → Option String
  | .str s => some s
  | _ => none

def Json.asArr : Json → Option (List Json)
  | .arr xs => some xs
  | _ => none

def Json.isObj : Json → Bool
  | .obj _ => true
  | _ => false

/-- Python `d[key] = v` on a JSON object: overwrite the binding in place
when the key is present, append it otherwise. -/
def Json.setField : Json → String → Json → Json
  | .obj fields, key, v =>
      if fields.any (fun p => p.1 = key) then
        .obj (fields.map (fun p => if p.1 = key then (key, v) else p))
      else
        .obj (fields ++ [(key, v)])
  | j, _, _ => j

/-- A JSON array whose elements are all strings (the shape `List[str]`
that pydantic accepts for `Scenario.characters`). -/
def Json.asStringList (j : Json) : Option (List String) :=
  match j with
  | .arr xs => xs.mapM Json.asString
  | _ => none

/-- Turn an optional value into an `Except`, raising the given Python
exception message when the value is absent. -/
def optE {α : Type} (o : Option α) (e : String) : Except String α :=
  match o with
  | some a => .ok a
  | none => .error e

/-! ## Data model (`src/taalquest/models.py`)

The pydantic models are embedded as plain structures together with one
constructor function per model that performs exactly the declared field
validation and fails (raises `ValidationError`) otherwise. -/

structure Location where
  id : String
  name : String
  type : String
  description : String
deriving Repr, DecidableEq

structure DialogueLine where
  speaker : String
  text : String
  voice_id : Int
deriving Repr, DecidableEq

structure Scenario where
  location : Location
  situation : String
  characters : List String
deriving Repr, DecidableEq

structure Script where
  scenario : Scenario
  dialogue : List DialogueLine
  /-- Estimated duration, stored in tenths of a second.  The source
  stores `len(dialogue) * 2.5` seconds as a float; 2.5 s = 25 tenths is
  exact, so the encoding loses nothing. -/
  duration_estimate : Nat
deriving Repr, DecidableEq

/-- Pydantic constructor `DialogueLine(...)`: checks `voice_id` is an int with
`ge=0, le=1`. -/
def mkDialogueLine (speaker text : String) (voice_id : Int) :
    Except String DialogueLine :=
  if 0 ≤ voice_id ∧ voice_id ≤ 1 then .ok ⟨speaker, text, voice_id⟩
  else .error "ValidationError: voice id out of range"

/-- Pydantic constructor `Scenario(...)`: checks `characters` has
`min_length=2, max_length=2`. -/
def mkScenario (location : Location) (situation : String)
    (characters : List String) : Except String Scenario :=
  if characters.length = 2 then .ok ⟨location, situation, characters⟩
  else .error "ValidationError: exactly two characters required"

/-- Pydantic constructor `Script(...)`: checks `dialogue` has
`min_length=4, max_length=8`. -/
def mkScript (scenario : Scenario) (dialogue : List DialogueLine)
    (duration_estimate : Nat) : Except String Script :=
  if 4 ≤ dialogue.length ∧ dialogue.length ≤ 8 then
    .ok ⟨scenario, dialogue, duration_estimate⟩
  else .error "ValidationError: dialogue must have 4 to 8 lines"

/-! ## Speech cache and synthesizer

`CacheState` models the audio cache directory (the set of file names
present) together with a counter of speech-backend invocations, the
observable the specification uses for its idempotence property. -/

structure CacheState where
  files : List String
  backendCalls : Nat
deriving Repr, DecidableEq

/-- Cache file name computed by `OpenAIClient.generate_audio`
(`server/openai_client.py`): the first 12 hex characters of
`hashlib.md5(text.encode()).hexdigest()`, an underscore, the voice id and
the `.mp3` extension.  `md5hex` stands for the hex digest function, a
fixed pure function of the input string. -/
def audioCacheFilename (md5hex : String → String) (text : String)
    (voice_id : Int) : String :=
  (md5hex text).take 12 ++ "_" ++ toString voice_id ++ ".mp3"

/-- Model of `OpenAIClient.generate_audio`: on a cache hit the file name is
returned with no backend call; on a miss the speech backend is invoked
(`backendOk` tells whether the call succeeds) and the file is persisted
at the cache path. -/
def generate_audio (md5hex : String → String)
    (backendOk : String → Int → Bool) (text : String) (voice_id : Int)
    (st : CacheState) : Except String (String × CacheState) :=
  let filename := audioCacheFilename md5hex text voice_id
  if filename ∈ st.files then
    .ok (filename, st)
  else if backendOk text voice_id then
    .ok (filename, { files := filename :: st.files,
                     backendCalls := st.backendCalls + 1 })
  else
    .error "Audio generation failed"

/-- Cache file name computed by `TTSGenerator.generate_speech`
(`src/taalquest/tts_generator.py`): the current Unix timestamp
(`int(time.time())`), the voice id and the first 8 hex characters of the
MD5 digest of the text, with the `.aiff` extension. -/
def ttsCacheFilename (md5hex : String → String) (timestamp : Nat)
    (text : String) (voice_id : Int) : String :=
  toString timestamp ++ "_" ++ toString voice_id ++ "_" ++
    (md5hex text).take 8 ++ ".aiff"

/-- Model of `TTSGenerator.generate_speech`: same cache-then-backend structure as
the server synthesizer, but keyed by `ttsCacheFilename`, which embeds the
call timestamp. -/
def generate_speech (md5hex : String → String)
    (sayOk : String → Int → Bool) (timestamp : Nat) (text : String)
    (voice_id : Int) (st : CacheState) :
    Except String (String × CacheState) :=
  let filename := ttsCacheFilename md5hex timestamp text voice_id
  if filename ∈ st.files then
    .ok (filename, st)
  else if sayOk text voice_id then
    .ok (filename, { files := filename :: st.files,
                     backendCalls := st.backendCalls + 1 })
  else
    .error "Failed to generate speech"

/-! ## Per-scenario audio generation -/

/-- Reading `line["text"]` and `line["voice_id"]` from one dialogue-line
object, as `OpenAIClient.generate_scenario_audio` does before calling
`generate_audio`.  In this repository the lines reaching this point come
from `generate_script`, which always stores an integer `voice_id`, so the
embedding requires an integer there. -/
def dialogueLineTextVoice (line : Json) : Except String (String × Int) :=
  match line with
  | .obj _ =>
    match line.lookupKey "text", line.lookupKey "voice_id" with
    | none, _ => .error "KeyError: text"
    | some _, none => .error "KeyError: voice_id"
    | some t, some v =>
      match t.asString with
      | none => .error "AttributeError: text has no encode"
      | some text =>
        match v with
        | .num n => .ok (text, n)
        | _ => .error "TypeError: voice id is not an integer"
  | _ => .error "TypeError: line is not an object"

/-- The loop body of `OpenAIClient.generate_scenario_audio`: synthesize
each dialogue line in array order, appending each file name in the same
order, aborting on the first failure. -/
def generate_audio_lines (md5hex : String → String)
    (backendOk : String → Int → Bool) :
    List Json → CacheState → Except String (List String × CacheState)
  | [], st => .ok ([], st)
  | line :: rest, st =>
    match dialogueLineTextVoice line with
    | .error e => .error e
    | .ok (text, v) =>
      match generate_audio md5hex backendOk text v st with
      | .error e => .error e
      | .ok (filename, st1) =>
        match generate_audio_lines md5hex backendOk rest st1 with
        | .error e => .error e
        | .ok (files, st2) => .ok (filename :: files, st2)

/-- Model of `OpenAIClient.generate_scenario_audio`. -/
def generate_scenario_audio (md5hex : String → String)
    (backendOk : String → Int → Bool) (script : Json) (st : CacheState) :
    Except String (List String × CacheState) :=
  match script.lookupKey "dialogue" with
  | none => .error "KeyError: dialogue"
  | some d =>
    match d.asArr with
    | none => .error "TypeError: dialogue is not a list"
    | some lines => generate_audio_lines md5hex backendOk lines st

/-- The audio loop of `TaalQuestApp.generate_new_scenario`
(`src/taalquest/main.py`): one `TTSGenerator.generate_speech` call per
dialogue line, results appended in dialogue order; the TTS component is
passed in as an oracle `tts`. -/
def desktop_generate_audio_files (tts : String → Int → Except String String) :
    List DialogueLine → Except String (List String)
  | [] => .ok []
  | line :: rest =>
    match tts line.text line.voice_id with
    | .error e => .error e
    | .ok filepath =>
      match desktop_generate_audio_files tts rest with
      | .error e => .error e
      | .ok files => .ok (filepath :: files)

/-! ## Script requester, desktop variant
(`src/taalquest/script_generator.py`) -/

/-- Index of the last closing brace in a character list (Python
`text.rfind` of the closing brace). -/
def lastCloseBraceIdx (cs : List Char) : Option Nat :=
  match cs.reverse.findIdx? (fun c => c = '\x7d') with
  | none => none
  | some k => some (cs.length - 1 - k)

/-- Python `str.strip()` whitespace test for the characters that occur in
chat-model responses. -/
def isSpaceChar (c : Char) : Bool :=
  c = ' ' ∨ c = '\t' ∨ c = '\n' ∨ c = '\r'

/-- Python `text.strip()` on a character list. -/
def trimChars (cs : List Char) : List Char :=
  ((cs.dropWhile isSpaceChar).reverse.dropWhile isSpaceChar).reverse

/-- The suffix after the first occurrence of `sep`, or `none` when `sep`
does not occur (Python `sep in text` plus `text.split(sep)[1:]`). -/
def afterFirst (sep : List Char) : List Char → Option (List Char)
  | [] => none
  | c :: rest =>
    if sep.isPrefixOf (c :: rest) then some (List.drop sep.length (c :: rest))
    else afterFirst sep rest

/-- The prefix before the first occurrence of `sep`, the whole list when
`sep` does not occur (Python `text.split(sep)[0]`). -/
def beforeFirst (sep : List Char) : List Char → List Char
  | [] => []
  | c :: rest =>
    if sep.isPrefixOf (c :: rest) then []
    else c :: beforeFirst sep rest

/-- Model of `ScriptGenerator._parse_json_response`: strip whitespace,
strip markdown code fences (the Python
`text.split(sep)[1].split(fence)[0]` idiom is the segment after the first
fence marker cut at the following fence), extract the span from the first
opening brace to the last closing brace, and parse it.  `parse` stands
for `json.loads`, returning `none` when the text is not valid JSON. -/
def parse_json_response (parse : String → Option Json)
    (response_text : String) : Except String Json :=
  let cs0 := trimChars response_text.toList
  let cs1 :=
    match afterFirst ("```json".toList) cs0 with
    | some tail => trimChars (beforeFirst ("```".toList) tail)
    | none =>
      match afterFirst ("```".toList) cs0 with
      | some tail => trimChars (beforeFirst ("```".toList) tail)
      | none => cs0
  match cs1.findIdx? (fun c => c = '\x7b'), lastCloseBraceIdx cs1 with
  | some start, some stop =>
    let json_text := String.mk ((cs1.drop start).take (stop + 1 - start))
    match parse json_text with
    | some j => .ok j
    | none => .error "JSONDecodeError: invalid JSON"
  | _, _ => .error "No JSON object found in response"

/-- The voice map `\x7bcharacters[0]: 0, characters[1]: 1\x7d` of
`ScriptGenerator._build_script`, read through `dict.get` with a default:
when both names are equal the second insertion overwrites the first, as
in a Python dict. -/
def voiceFor (c0 c1 speaker : String) (dflt : Int) : Int :=
  if speaker = c1 then 1 else if speaker = c0 then 0 else dflt

/-- The dialogue loop of `ScriptGenerator._build_script`: each line object
must carry a string `speaker` and a string `text`; the voice id comes from
the name-to-voice map, defaulting to `random.randint(0, 1)` for unknown
speakers (`rand` gives the value drawn at each line index). -/
def buildDialogue (rand : Nat → Int) (c0 c1 : String) :
    List Json → Nat → Except String (List DialogueLine)
  | [], _ => .ok []
  | lineJ :: rest, i =>
    match lineJ with
    | .obj _ =>
      match (lineJ.lookupKey "speaker").bind Json.asString with
      | none => .error "KeyError or ValidationError: speaker"
      | some speaker =>
        let voice_id := voiceFor c0 c1 speaker (rand i)
        match (lineJ.lookupKey "text").bind Json.asString with
        | none => .error "KeyError or ValidationError: text"
        | some text =>
          match mkDialogueLine speaker text voice_id with
          | .error e => .error e
          | .ok line =>
            match buildDialogue rand c0 c1 rest (i + 1) with
            | .error e => .error e
            | .ok lines => .ok (line :: lines)
    | _ => .error "TypeError: dialogue line is not an object"

/-- Model of `ScriptGenerator._build_script`: builds the `Scenario` (pydantic
validates `situation` and the two-element `characters` list), assigns
voices positionally through the name-to-voice map, builds each
`DialogueLine`, and builds the `Script` (pydantic validates the 4..8
dialogue length).  The duration estimate `len(dialogue) * 2.5` is modelled
as a rational. -/
def build_script (rand : Nat → Int) (location : Location)
    (scenario_data : Json) : Except String Script :=
  match scenario_data.lookupKey "situation" with
  | none => .error "KeyError: situation"
  | some situationJ =>
    match situationJ.asString with
    | none => .error "ValidationError: situation must be a string"
    | some situation =>
      match scenario_data.lookupKey "characters" with
      | none => .error "KeyError: characters"
      | some charactersJ =>
        match charactersJ.asStringList with
        | none => .error "ValidationError: characters must be a list of strings"
        | some characters =>
          match mkScenario location situation characters with
          | .error e => .error e
          | .ok scenario =>
            match scenario_data.lookupKey "dialogue" with
            | none => .error "KeyError: dialogue"
            | some dialogueJ =>
              match dialogueJ.asArr with
              | none => .error "TypeError: dialogue is not a list"
              | some lineObjs =>
                match buildDialogue rand (characters.getD 0 "")
                    (characters.getD 1 "") lineObjs 0 with
                | .error e => .error e
                | .ok dialogue =>
                  mkScript scenario dialogue (dialogue.length * 25)

/-- Model of `ScriptGenerator.generate_scenario_script`: backend call, JSON
extraction, script construction; every failure is wrapped into one
`GenerationError`-style exception.  `backendResponse` is the outcome of
`_call_ollama` (an error when the backend is unreachable). -/
def generate_scenario_script (parse : String → Option Json)
    (rand : Nat → Int) (backendResponse : Except String String)
    (location : Location) : Except String Script :=
  match backendResponse with
  | .error e => .error ("Failed to generate script: " ++ e)
  | .ok response_text =>
    match parse_json_response parse response_text with
    | .error e => .error ("Failed to generate script: " ++ e)
    | .ok scenario_data =>
      match build_script rand location scenario_data with
      | .error e => .error ("Failed to generate script: " ++ e)
      | .ok script => .ok script

/-! ## Script requester, server variant (`server/openai_client.py`) -/

structure Character where
  id : String
  name : String
  personality : List String
  voice_id : Int
  occupation : String
  locations : List String
deriving Repr, DecidableEq

/-- Model of `OpenAIClient._select_characters_for_location`: filter the roster to
the characters associated with the location, fall back to the full roster
when fewer than two match, then draw `min(2, len(pool))` characters with
`random.sample` (passed in as the oracle `sample`). -/
def select_characters_for_location
    (sample : List Character → Nat → List Character)
    (characters : List Character) (location_id : String) : List Character :=
  let location_characters :=
    characters.filter (fun c => location_id ∈ c.locations)
  let pool :=
    if location_characters.length < 2 then characters
    else location_characters
  sample pool (min 2 pool.length)

/-- Python `dict(pairs).get(key, dflt)` where later pairs overwrite
earlier ones with the same key. -/
def pyDictGet (pairs : List (String × Int)) (key : String) (dflt : Int) :
    Int :=
  match List.lookup key pairs.reverse with
  | some v => v
  | none => dflt

/-- The prompt built by `OpenAIClient.generate_script`.  The constant
English instruction text is abbreviated here; what matters for the claims
is which location and character fields its construction reads, and in
particular that it indexes the first and second selected characters. -/
def buildServerPrompt (location : Location) (selected : List Character)
    (c0 c1 : Character) : String :=
  let char_descriptions := selected.map (fun c =>
    c.name ++ " (" ++ c.occupation ++ ") - personality: " ++
      String.intercalate ", " c.personality)
  "You are a Dutch language teacher creating A1 level dialogues. Location: "
    ++ location.name ++ " (" ++ location.type ++ ") Context: "
    ++ location.description ++ " Characters: "
    ++ String.intercalate " " char_descriptions
    ++ " Use EXACTLY these 2 character names: " ++ c0.name ++ " and "
    ++ c1.name

/-- The per-line mutation `line["voice_id"] = voice_map_char.get(
line["speaker"], 0)` of `OpenAIClient.generate_script`: the voice comes
from the roster voice id of the speaker name, defaulting to 0 for unknown
speakers; a line that is not an object or lacks a speaker raises. -/
def setLineVoice (vmap : List (String × Int)) (line : Json) :
    Except String Json :=
  match line with
  | .obj _ =>
    match line.lookupKey "speaker" with
    | none => .error "KeyError: speaker"
    | some speakerJ =>
      match speakerJ with
      | .arr _ => .error "TypeError: unhashable dict key"
      | .obj _ => .error "TypeError: unhashable dict key"
      | .str s => .ok (line.setField "voice_id" (.num (pyDictGet vmap s 0)))
      | _ => .ok (line.setField "voice_id" (.num 0))
  | _ => .error "TypeError: line is not an object"

/-- Model of `OpenAIClient.generate_script`.  Returns the transformed script
document together with a flag telling whether the chat backend was
invoked.  Selecting fewer than two characters makes the prompt
construction raise `IndexError` before the `try` block, hence before any
backend call; inside the `try` block every failure is wrapped into one
exception.  `backend` is the chat-completion call, `parse` is
`json.loads`. -/
def server_generate_script (sample : List Character → Nat → List Character)
    (backend : String → Except String String) (parse : String → Option Json)
    (characters : List Character) (location : Location) :
    Except String Json × Bool :=
  let selected := select_characters_for_location sample characters location.id
  match selected.get? 0, selected.get? 1 with
  | some c0, some c1 =>
    let prompt := buildServerPrompt location selected c0 c1
    let result : Except String Json :=
      match backend prompt with
      | .error e => .error ("Script generation failed: " ++ e)
      | .ok content =>
        match parse content with
        | none => .error "Script generation failed: JSONDecodeError"
        | some script_data =>
          let newChars := Json.arr (selected.map (fun c =>
            Json.obj [("id", .str c.id), ("name", .str c.name),
                      ("voice_id", .num c.voice_id)]))
          let script_data := script_data.setField "characters" newChars
          let vmap := selected.map (fun c => (c.name, c.voice_id))
          match script_data.lookupKey "dialogue" with
          | none => .error "Script generation failed: KeyError dialogue"
          | some dJ =>
            match dJ.asArr with
            | none => .error "Script generation failed: TypeError"
            | some lines =>
              match lines.mapM (setLineVoice vmap) with
              | .error e => .error ("Script generation failed: " ++ e)
              | .ok newLines =>
                .ok (script_data.setField "dialogue" (.arr newLines))
    (result, true)
  | _, _ => (.error "IndexError: list index out of range", false)

/-! ## Scenario orchestrator, server variant (`server/app.py`) -/

/-- The random branch of location selection, shared verbatim between
`generate_scenario` in `server/app.py` and
`TaalQuestApp.generate_new_scenario` in `src/taalquest/main.py`: filter
out the excluded identifier, fall back to the full pool when the filter
empties it, then `random.choice` (modelled by the index oracle `choose`;
`random.choice` raises `IndexError` on an empty pool). -/
def select_location_random (choose : List Location → Nat)
    (locations : List Location) (exclude_id : Option String) :
    Except String Location :=
  let available := locations.filter (fun loc => some loc.id != exclude_id)
  let available2 := if available.isEmpty then locations else available
  match available2.get? (choose available2 % available2.length) with
  | some loc => .ok loc
  | none => .error "IndexError: choice from an empty sequence"

/-- Location selection of `generate_scenario` in `server/app.py`: a falsy
`location_id` (absent or the empty string, by Python truthiness) takes
the random branch; otherwise the first location with that identifier is
looked up and a missing one yields the 404 response. -/
def select_location (choose : List Location → Nat)
    (locations : List Location) (location_id exclude_id : Option String) :
    Except String Location :=
  match location_id with
  | none => select_location_random choose locations exclude_id
  | some lid =>
    if lid = "" then select_location_random choose locations exclude_id
    else
      match locations.find? (fun loc => loc.id = lid) with
      | some loc => .ok loc
      | none => .error "Location not found"

/-- The `/api/generate-scenario` handler of `server/app.py`: select a
location, generate the script, generate the audio list, and return the
assembled response; any failure yields an error response and no partial
scenario.  `genScript` and `genAudio` stand for the two `ai_client`
calls. -/
def generate_scenario_endpoint (choose : List Location → Nat)
    (genScript : Location → Except String Json)
    (genAudio : Json → Except String (List String))
    (locations : List Location) (location_id exclude_id : Option String) :
    Except String (Location × Json × List String) :=
  match select_location choose locations location_id exclude_id with
  | .error e => .error e
  | .ok location =>
    match genScript location with
    | .error e => .error e
    | .ok script =>
      match genAudio script with
      | .error e => .error e
      | .ok audio_files => .ok (location, script, audio_files)

/-! ## Scenario orchestrator, desktop variant (`src/taalquest/main.py`) -/

/-- Mutable scenario state of `TaalQuestApp` that is visible to the
caller between generations. -/
structure AppState where
  last_location_id : Option String
  current_script : Option Script
  current_audio_files : List String
deriving Repr, DecidableEq

/-- The location draw at the top of `TaalQuestApp.generate_new_scenario`:
same filter-fallback-choice logic as the server endpoint, with the last
generated location as the exclusion. -/
def desktop_pick (choose : List Location → Nat)
    (locations : List Location) (last : Option String) : Option Location :=
  let available := locations.filter (fun loc => some loc.id != last)
  let available2 := if available.isEmpty then locations else available
  available2.get? (choose available2 % available2.length)

/-- Model of `TaalQuestApp.generate_new_scenario`.  The assignments inside
the `try` block happen in source order: `last_location_id` right after the
draw, `current_script` right after script generation, and
`current_audio_files` only after every line synthesized; the exception
handler only updates the window, so on failure each field keeps whatever
was assigned before the failing statement. -/
def generate_new_scenario (choose : List Location → Nat)
    (genScript : Location → Except String Script)
    (tts : String → Int → Except String String)
    (locations : List Location) (st : AppState) : AppState :=
  match desktop_pick choose locations st.last_location_id with
  | none => st
  | some location =>
    let st1 := { st with last_location_id := some location.id }
    match genScript location with
    | .error _ => st1
    | .ok script =>
      let st2 := { st1 with current_script := some script }
      match desktop_generate_audio_files tts script.dialogue with
      | .error _ => st2
      | .ok files => { st2 with current_audio_files := files }

/-! ## Playback sequencer (`src/taalquest/audio_player.py`)

The `afplay` subprocess is modelled by the file it plays together with a
flag telling whether `poll()` reports completion; the file system is the
predicate `fs` telling which paths exist. -/

structure Proc where
  file : String
  finished : Bool
deriving Repr, DecidableEq

structure PlayerState where
  current_sequence : List String
  current_index : Nat
  is_playing_sequence : Bool
  pause_duration_ms : Nat
  current_process : Option Proc
deriving Repr, DecidableEq

/-- The state built by `AudioPlayer.__init__`. -/
def initPlayer : PlayerState :=
  { current_sequence := [], current_index := 0,
    is_playing_sequence := false, pause_duration_ms := 500,
    current_process := none }

/-- Model of `AudioPlayer.play_audio`: a missing file is caught and
reported as `False` with the state untouched; otherwise any running
process is terminated and a fresh `afplay` process is started on the
file. -/
def play_audio (fs : String → Bool) (filepath : String)
    (st : PlayerState) : Bool × PlayerState :=
  if fs filepath then
    (true, { st with current_process := some ⟨filepath, false⟩ })
  else
    (false, st)

/-- First element of the list rejected by the existence check, the path
named by the `FileNotFoundError` that `AudioPlayer.play_sequence`
raises. -/
def firstMissing (fs : String → Bool) : List String → Option String
  | [] => none
  | p :: rest => if fs p then firstMissing fs rest else some p

/-- Model of `AudioPlayer.play_sequence`: an empty list returns `False`;
the validation loop raises on the first missing file before any state
change; only when every file exists are the sequence, index, pause and
playing flag recorded and the first file started. -/
def play_sequence (fs : String → Bool) (filepaths : List String)
    (pause_ms : Nat) (st : PlayerState) :
    Except String Bool × PlayerState :=
  if filepaths.isEmpty then (.ok false, st)
  else
    match firstMissing fs filepaths with
    | some p => (.error ("Audio file not found: " ++ p), st)
    | none =>
      let st1 := { st with current_sequence := filepaths,
                           current_index := 0,
                           pause_duration_ms := pause_ms,
                           is_playing_sequence := true }
      let r := play_audio fs (filepaths.headD "") st1
      (.ok r.1, r.2)

/-- Model of `AudioPlayer.update_sequence_playback`, the polled tick:
when the current process reports finished the index advances; past the
end the sequence is complete (`False` is returned and the playing flag
drops), otherwise the next file starts after the pause. -/
def update_sequence_playback (fs : String → Bool) (st : PlayerState) :
    Bool × PlayerState :=
  if !st.is_playing_sequence then (false, st)
  else
    match st.current_process with
    | some p =>
      if p.finished then
        let idx := st.current_index + 1
        if st.current_sequence.length ≤ idx then
          (false, { st with current_index := idx,
                            is_playing_sequence := false,
                            current_process := none })
        else
          let st1 := { st with current_index := idx }
          (true, (play_audio fs (st1.current_sequence.getD idx "") st1).2)
      else (true, st)
    | none => (true, st)

/-- Model of `AudioPlayer.stop_audio`: terminate the process when it is
still running, drop the playing flag and reset the index.  The recorded
sequence list is left as it is, exactly as in the source. -/
def stop_audio (st : PlayerState) : PlayerState :=
  let st1 :=
    match st.current_process with
    | some p =>
      if !p.finished then { st with current_process := none } else st
    | none => st
  { st1 with is_playing_sequence := false, current_index := 0 }

/-- Model of `AudioPlayer.get_playback_progress`: `(index+1)/length` when
a sequence is playing and nonempty, `None` otherwise. -/
def get_playback_progress (st : PlayerState) : Option Rat :=
  if !st.is_playing_sequence ∨ st.current_sequence.isEmpty then none
  else some ((st.current_index + 1 : Rat) / st.current_sequence.length)

/-- Environment step: the running `afplay` process exits, so that
`poll()` stops returning `None`. -/
def procFinishes (st : PlayerState) : PlayerState :=
  { st with current_process :=
      st.current_process.map (fun p => { p with finished := true }) }

/-! ## Concrete fixtures -/

/-- A stand-in for the MD5 hex digest of every input (the digest of a
fixed string is itself fixed, which is all the statements below use). -/
def demoHash : String → String := fun _ => "d41d8cd98f00b204"

def demoLoc : Location :=
  ⟨"bakkerij_centrum", "Bakkerij de Gouden Korrel", "bakkerij",
   "Brood en gebak"⟩

def demoLoc2 : Location :=
  ⟨"supermarkt_west", "Supermarkt West", "supermarkt", "Eten en drinken"⟩

/-- A file system on which every path exists. -/
def demoFs : String → Bool := fun _ => true

def charAnna : Character :=
  ⟨"anna", "Anna", ["vriendelijk"], 1, "bakker", ["bakkerij_centrum"]⟩

def charBram : Character :=
  ⟨"bram", "Bram", ["rustig"], 0, "klant", ["bakkerij_centrum"]⟩

/-- A deterministic stand-in for `random.sample`: take the first `k`
elements of the pool. -/
def sampleTake : List Character → Nat → List Character :=
  fun l k => l.take k

def script0 : Script :=
  ⟨⟨demoLoc, "oude situatie", ["Anna", "Bram"]⟩,
   [⟨"Anna", "Goedemorgen!", 0⟩, ⟨"Bram", "Hallo!", 1⟩,
    ⟨"Anna", "Wat wilt u?", 0⟩, ⟨"Bram", "Een brood.", 1⟩], 100⟩

def script1 : Script :=
  ⟨⟨demoLoc, "nieuwe situatie", ["Anna", "Bram"]⟩,
   [⟨"Anna", "Goedemiddag!", 0⟩, ⟨"Bram", "Dag!", 1⟩,
    ⟨"Anna", "Nog iets?", 0⟩, ⟨"Bram", "Nee, dank u.", 1⟩], 100⟩

/-! ## C1 — cache-key determinism and idempotence of the synthesizer -/

/-- C1 counterexample.  The claim states that for every (text, voiceId)
pair the synthesizer cache key is a function of the text and the voice
identifier alone, stable across two calls with no volatile data such as
timestamps.  The desktop synthesizer `TTSGenerator.generate_speech`
embeds `int(time.time())` in the key, so the same pair at two
consecutive seconds yields two different keys (and the second call misses
the cache and invokes the backend again). -/
theorem c1_counterexample :
    ttsCacheFilename demoHash 1700000000 "Goedemorgen" 0 ≠
      ttsCacheFilename demoHash 1700000001 "Goedemorgen" 0 := by
  decide

/-- C1 (amended): for the server synthesizer
`OpenAIClient.generate_audio`, the cache key is
`audioCacheFilename md5hex text voice_id`, a function of the text and the
voice identifier alone, so it is the same on every call and across
restarts; and after one successful call, a second call with the identical
pair returns the same key and the identical cache state — in particular
the backend-invocation counter does not move.  (The desktop variant
`TTSGenerator.generate_speech` instead embeds the call timestamp in the
key; see the counterexample.) -/
theorem c1_theorem (md5hex : String → String)
    (backendOk : String → Int → Bool) (text : String) (voice_id : Int)
    (st st1 : CacheState) (f : String)
    (h : generate_audio md5hex backendOk text voice_id st = .ok (f, st1)) :
    f = audioCacheFilename md5hex text voice_id ∧
    generate_audio md5hex backendOk text voice_id st1 = .ok (f, st1) := by
  unfold generate_audio at h ⊢
  by_cases hmem : audioCacheFilename md5hex text voice_id ∈ st.files
  · simp only [hmem, if_true, Except.ok.injEq, Prod.mk.injEq] at h
    obtain ⟨hf, hst⟩ := h
    subst hf hst
    simp [hmem]
  · simp only [hmem, if_false] at h
    by_cases hb : backendOk text voice_id
    · simp only [hb, if_true, Except.ok.injEq, Prod.mk.injEq] at h
      obtain ⟨hf, hst⟩ := h
      subst hf
      subst hst
      simp
    · simp [hb] at h

/-- Witness for C1: a concrete first call on an empty cache, followed by
the second call resolving to the same key on the unchanged state. -/
theorem c1_witness :
    "d41d8cd98f00_0.mp3" = audioCacheFilename demoHash "Hallo" 0 ∧
    generate_audio demoHash (fun _ _ => true) "Hallo" 0
        ⟨["d41d8cd98f00_0.mp3"], 1⟩ =
      .ok ("d41d8cd98f00_0.mp3", ⟨["d41d8cd98f00_0.mp3"], 1⟩) :=
  c1_theorem demoHash (fun _ _ => true) "Hallo" 0 ⟨[], 0⟩
    ⟨["d41d8cd98f00_0.mp3"], 1⟩ "d41d8cd98f00_0.mp3" (by rfl)

/-! ## C2 — failure leaves prior scenario state untouched -/

/-- C2 counterexample.  The claim states that a failed scenario
generation leaves the last-good script visible to the caller exactly what
it was.  In `TaalQuestApp.generate_new_scenario` the new script is
assigned to `current_script` before the audio loop runs, so when a TTS
call fails the prior script has already been replaced (while the prior
audio list survives, leaving a mismatched pair). -/
theorem c2_counterexample :
    (generate_new_scenario (fun _ => 0) (fun _ => .ok script1)
        (fun _ _ => .error "say failed") [demoLoc]
        ⟨none, some script0, ["old.aiff"]⟩).current_script ≠
      some script0 ∧
    (generate_new_scenario (fun _ => 0) (fun _ => .ok script1)
        (fun _ _ => .error "say failed") [demoLoc]
        ⟨none, some script0, ["old.aiff"]⟩).current_script =
      some script1 := by
  constructor
  · decide
  · rfl

/-- C2 (amended): when script generation itself fails, both
`current_script` and `current_audio_files` are exactly what they were
(only `last_location_id` has moved); when a per-line audio synthesis
fails, the audio list is unchanged but `current_script` has already been
replaced by the new script; and the server endpoint returns no partial
scenario on any failure — a script-generation error propagates as the
whole response. -/
theorem c2_theorem (choose : List Location → Nat)
    (genScript : Location → Except String Script)
    (tts : String → Int → Except String String)
    (locations : List Location) (st : AppState) (loc : Location)
    (hpick : desktop_pick choose locations st.last_location_id = some loc) :
    (∀ e, genScript loc = .error e →
        generate_new_scenario choose genScript tts locations st =
          { st with last_location_id := some loc.id }) ∧
    (∀ script e, genScript loc = .ok script →
        desktop_generate_audio_files tts script.dialogue = .error e →
        generate_new_scenario choose genScript tts locations st =
          { st with last_location_id := some loc.id,
                    current_script := some script }) ∧
    (∀ (genS : Location → Except String Json)
        (genAudio : Json → Except String (List String))
        (lid ex : Option String) (loc2 : Location) (e : String),
        select_location choose locations lid ex = .ok loc2 →
        genS loc2 = .error e →
        generate_scenario_endpoint choose genS genAudio locations lid ex =
          .error e) := by
  refine ⟨?_, ?_, ?_⟩
  · intro e he
    simp [generate_new_scenario, hpick, he]
  · intro script e hs ha
    simp [generate_new_scenario, hpick, hs, ha]
  · intro genS genAudio lid ex loc2 e hsel hgen
    simp [generate_scenario_endpoint, hsel, hgen]

/-- Witness for C2: concrete failing runs of both shapes, plus the
server-endpoint propagation on a concrete location pool. -/
theorem c2_witness :
    generate_new_scenario (fun _ => 0) (fun _ => .error "down")
        (fun _ _ => .ok "f.aiff") [demoLoc]
        ⟨none, some script0, ["old.aiff"]⟩ =
      ⟨some "bakkerij_centrum", some script0, ["old.aiff"]⟩ ∧
    generate_scenario_endpoint (fun _ => 0)
        (fun _ => .error "Script generation failed: down")
        (fun _ => .ok []) [demoLoc] none none =
      .error "Script generation failed: down" := by
  have h := c2_theorem (fun _ => 0) (fun _ => .error "down")
    (fun _ _ => .ok "f.aiff") [demoLoc]
    ⟨none, some script0, ["old.aiff"]⟩ demoLoc (by rfl)
  exact ⟨h.1 "down" rfl, h.2.2 (fun _ => .error "Script generation failed: down")
    (fun _ => .ok []) none none demoLoc "Script generation failed: down"
    (by rfl) rfl⟩

/-! ## C3 — one audio artifact per dialogue line, in dialogue order -/

/-- On success, `generate_audio` returns exactly the content-addressed
cache file name of its text and voice id. -/
theorem generate_audio_ok_filename (md5hex : String → String)
    (backendOk : String → Int → Bool) (text : String) (voice_id : Int)
    (st st1 : CacheState) (f : String)
    (h : generate_audio md5hex backendOk text voice_id st = .ok (f, st1)) :
    f = audioCacheFilename md5hex text voice_id := by
  unfold generate_audio at h
  by_cases hmem : audioCacheFilename md5hex text voice_id ∈ st.files
  · simp only [hmem, if_true, Except.ok.injEq, Prod.mk.injEq] at h
    exact h.1.symm
  · by_cases hb : backendOk text voice_id
    · simp only [hmem, hb, if_true, if_false, Except.ok.injEq,
        Prod.mk.injEq] at h
      exact h.1.symm
    · simp [hmem, hb] at h

/-- Specification of the audio loop of
`OpenAIClient.generate_scenario_audio`: on success there is one file per
line and the i-th file is the cache key of the i-th line. -/
theorem generate_audio_lines_spec (md5hex : String → String)
    (backendOk : String → Int → Bool) :
    ∀ (lines : List Json) (st : CacheState) (files : List String)
      (st1 : CacheState),
      generate_audio_lines md5hex backendOk lines st = .ok (files, st1) →
      files.length = lines.length ∧
      ∀ i, i < lines.length →
        ∃ text v, dialogueLineTextVoice (lines.getD i .null) = .ok (text, v)
          ∧ files.getD i "" = audioCacheFilename md5hex text v := by
  intro lines
  induction lines with
  | nil =>
    intro st files st1 h
    simp [generate_audio_lines] at h
    simp [h.1]
  | cons line rest ih =>
    intro st files st1 h
    unfold generate_audio_lines at h
    split at h
    · exact absurd h (by simp)
    · rename_i text v htv
      split at h
      · exact absurd h (by simp)
      · rename_i filename stA hga
        split at h
        · exact absurd h (by simp)
        · rename_i fs stB hrest
          simp only [Except.ok.injEq, Prod.mk.injEq] at h
          obtain ⟨hfiles, _⟩ := h
          subst hfiles
          obtain ⟨hlen, hidx⟩ := ih stA fs stB hrest
          refine ⟨by simp [hlen], ?_⟩
          intro i hi
          cases i with
          | zero =>
            refine ⟨text, v, by simpa using htv, ?_⟩
            simpa using
              generate_audio_ok_filename md5hex backendOk text v st stA
                filename hga
          | succ j =>
            have hj : j < rest.length := by simpa using hi
            simpa using hidx j hj

/-- Specification of the desktop audio loop in
`TaalQuestApp.generate_new_scenario`. -/
theorem desktop_audio_files_spec (tts : String → Int → Except String String) :
    ∀ (dialogue : List DialogueLine) (dfiles : List String),
      desktop_generate_audio_files tts dialogue = .ok dfiles →
      dfiles.length = dialogue.length ∧
      ∀ i, i < dialogue.length →
        tts (dialogue.getD i ⟨"", "", 0⟩).text
            (dialogue.getD i ⟨"", "", 0⟩).voice_id = .ok (dfiles.getD i "") := by
  intro dialogue
  induction dialogue with
  | nil =>
    intro dfiles h
    simp [desktop_generate_audio_files] at h
    simp [h]
  | cons line rest ih =>
    intro dfiles h
    unfold desktop_generate_audio_files at h
    split at h
    · exact absurd h (by simp)
    · rename_i filepath hline
      split at h
      · exact absurd h (by simp)
      · rename_i files hrest
        simp only [Except.ok.injEq] at h
        subst h
        obtain ⟨hlen, hidx⟩ := ih files hrest
        refine ⟨by simp [hlen], ?_⟩
        intro i hi
        cases i with
        | zero => simpa using hline
        | succ j =>
          have hj : j < rest.length := by simpa using hi
          simpa using hidx j hj

/-- C3: for every successfully generated scenario, both in the server
loop `OpenAIClient.generate_scenario_audio` and in the desktop loop of
`TaalQuestApp.generate_new_scenario`, the audio-file list has exactly one
element per dialogue line and the i-th artifact is the one synthesized
from the i-th line (its text and voice id), in dialogue order. -/
theorem c3_theorem (md5hex : String → String)
    (backendOk : String → Int → Bool) (script : Json) (st st1 : CacheState)
    (lines : List Json) (files : List String)
    (tts : String → Int → Except String String)
    (dialogue : List DialogueLine) (dfiles : List String)
    (hdial : script.lookupKey "dialogue" = some (.arr lines))
    (hok : generate_scenario_audio md5hex backendOk script st =
      .ok (files, st1))
    (hdesk : desktop_generate_audio_files tts dialogue = .ok dfiles) :
    (files.length = lines.length ∧
      ∀ i, i < lines.length →
        ∃ text v, dialogueLineTextVoice (lines.getD i .null) = .ok (text, v)
          ∧ files.getD i "" = audioCacheFilename md5hex text v) ∧
    (dfiles.length = dialogue.length ∧
      ∀ i, i < dialogue.length →
        tts (dialogue.getD i ⟨"", "", 0⟩).text
            (dialogue.getD i ⟨"", "", 0⟩).voice_id =
          .ok (dfiles.getD i "")) := by
  have hserver : generate_audio_lines md5hex backendOk lines st =
      .ok (files, st1) := by
    unfold generate_scenario_audio at hok
    rw [hdial] at hok
    simpa [Json.asArr] using hok
  exact ⟨generate_audio_lines_spec md5hex backendOk lines st files st1
    hserver, desktop_audio_files_spec tts dialogue dfiles hdesk⟩

/-- Witness for C3: a concrete two-line script through the server loop
and a concrete one-line dialogue through the desktop loop. -/
theorem c3_witness :
    (["d41d8cd98f00_0.mp3", "d41d8cd98f00_1.mp3"].length =
        [Json.obj [("speaker", .str "Anna"), ("text", .str "Hoi"),
                   ("voice_id", .num 0)],
         Json.obj [("speaker", .str "Bram"), ("text", .str "Dag"),
                   ("voice_id", .num 1)]].length ∧
      ∀ i, i < [Json.obj [("speaker", .str "Anna"), ("text", .str "Hoi"),
                   ("voice_id", .num 0)],
                Json.obj [("speaker", .str "Bram"), ("text", .str "Dag"),
                   ("voice_id", .num 1)]].length →
        ∃ text v,
          dialogueLineTextVoice
              ([Json.obj [("speaker", .str "Anna"), ("text", .str "Hoi"),
                   ("voice_id", .num 0)],
                Json.obj [("speaker", .str "Bram"), ("text", .str "Dag"),
                   ("voice_id", .num 1)]].getD i .null) = .ok (text, v)
          ∧ ["d41d8cd98f00_0.mp3", "d41d8cd98f00_1.mp3"].getD i "" =
              audioCacheFilename demoHash text v) ∧
    (["Hallo.aiff"].length = [(⟨"Anna", "Hallo", 0⟩ : DialogueLine)].length ∧
      ∀ i, i < [(⟨"Anna", "Hallo", 0⟩ : DialogueLine)].length →
        (fun (t : String) (_ : Int) =>
            (.ok (t ++ ".aiff") : Except String String))
          ([(⟨"Anna", "Hallo", 0⟩ : DialogueLine)].getD i ⟨"", "", 0⟩).text
          ([(⟨"Anna", "Hallo", 0⟩ : DialogueLine)].getD i ⟨"", "", 0⟩).voice_id
          = .ok (["Hallo.aiff"].getD i "")) :=
  c3_theorem demoHash (fun _ _ => true)
    (Json.obj [("dialogue", Json.arr
        [Json.obj [("speaker", .str "Anna"), ("text", .str "Hoi"),
                   ("voice_id", .num 0)],
         Json.obj [("speaker", .str "Bram"), ("text", .str "Dag"),
                   ("voice_id", .num 1)]])])
    ⟨[], 0⟩ ⟨["d41d8cd98f00_1.mp3", "d41d8cd98f00_0.mp3"], 2⟩
    [Json.obj [("speaker", .str "Anna"), ("text", .str "Hoi"),
               ("voice_id", .num 0)],
     Json.obj [("speaker", .str "Bram"), ("text", .str "Dag"),
               ("voice_id", .num 1)]]
    ["d41d8cd98f00_0.mp3", "d41d8cd98f00_1.mp3"]
    (fun t _ => .ok (t ++ ".aiff"))
    [⟨"Anna", "Hallo", 0⟩] ["Hallo.aiff"]
    (by rfl) (by rfl) (by rfl)

/-! ## C4 — failure on malformed or incomplete structured responses -/

/-- Looking up one key is unaffected by overwriting a different key. -/
theorem lookup_map_set (k k' : String) (v : Json) (h : k' ≠ k) :
    ∀ fields : List (String × Json),
      List.lookup k' (fields.map (fun p => if p.1 = k then (k, v) else p)) =
      List.lookup k' fields := by
  intro fields
  induction fields with
  | nil => simp
  | cons p rest ih =>
    obtain ⟨pk, pv⟩ := p
    by_cases hp : pk = k
    · subst hp
      have hne : (k' == pk) = false := by simpa using h
      rw [List.map_cons, if_pos rfl]
      simp [List.lookup, hne, ih]
    · have hif : ¬((pk, pv).1 = k) := hp
      rw [List.map_cons, if_neg hif]
      by_cases hk : k' = pk
      · simp [List.lookup, hk]
      · have hne : (k' == pk) = false := by simpa using hk
        simp [List.lookup, hne, ih]

/-- Looking up one key is unaffected by appending a different key. -/
theorem lookup_append_single (k k' : String) (v : Json) (h : k' ≠ k) :
    ∀ fields : List (String × Json),
      List.lookup k' (fields ++ [(k, v)]) = List.lookup k' fields := by
  intro fields
  induction fields with
  | nil =>
    have hne : (k' == k) = false := by simpa using h
    simp [List.lookup, hne]
  | cons p rest ih =>
    obtain ⟨pk, pv⟩ := p
    by_cases hk : k' = pk
    · simp [List.lookup, hk]
    · have hne : (k' == pk) = false := by simpa using hk
      simp [List.lookup, hne, ih]

/-- `Json.setField k v` does not change the lookup of any other key. -/
theorem lookupKey_setField_ne (j : Json) (k k' : String) (v : Json)
    (h : k' ≠ k) : (j.setField k v).lookupKey k' = j.lookupKey k' := by
  cases j with
  | obj fields =>
    simp only [Json.setField]
    split
    · simpa [Json.lookupKey] using lookup_map_set k k' v h fields
    · simpa [Json.lookupKey] using lookup_append_single k k' v h fields
  | null => rfl
  | bool b => rfl
  | num n => rfl
  | str s => rfl
  | arr elems => rfl

/-- Fixture: a fully valid parsed script document for the desktop
pipeline. -/
def validDoc : Json :=
  Json.obj [("situation", .str "In de bakkerij"),
    ("characters", .arr [.str "Anna", .str "Bram"]),
    ("dialogue", .arr
      [.obj [("speaker", .str "Anna"), ("text", .str "Goedemorgen")],
       .obj [("speaker", .str "Bram"), ("text", .str "Hallo")],
       .obj [("speaker", .str "Anna"), ("text", .str "Brood?")],
       .obj [("speaker", .str "Bram"), ("text", .str "Ja, graag")]])]

/-- Fixture: the script that `_build_script` produces from `validDoc`. -/
def validDocScript : Script :=
  ⟨⟨demoLoc, "In de bakkerij", ["Anna", "Bram"]⟩,
   [⟨"Anna", "Goedemorgen", 0⟩, ⟨"Bram", "Hallo", 1⟩,
    ⟨"Anna", "Brood?", 0⟩, ⟨"Bram", "Ja, graag", 1⟩], 100⟩

/-- C4 counterexample.  The claim states that `requestScript` fails with
`GenerationError` whenever the parsed document lacks `situation`, a
two-element `characters` array, or a 4..8-line `dialogue` array.  The
server variant `OpenAIClient.generate_script` performs none of those
checks: on a parsed document with no `situation`, no `characters` and a
single-line `dialogue` it succeeds, returning the transformed document
(with `characters` silently replaced by the roster selection). -/
theorem c4_counterexample :
    server_generate_script sampleTake (fun _ => .ok "raw")
      (fun _ => some (Json.obj [("dialogue", .arr
        [.obj [("speaker", .str "Anna"), ("text", .str "Hallo")]])]))
      [charAnna, charBram] demoLoc =
    (.ok (Json.obj
      [("dialogue", .arr [.obj [("speaker", .str "Anna"),
          ("text", .str "Hallo"), ("voice_id", .num 1)]]),
       ("characters", .arr
         [.obj [("id", .str "anna"), ("name", .str "Anna"),
                ("voice_id", .num 1)],
          .obj [("id", .str "bram"), ("name", .str "Bram"),
                ("voice_id", .num 0)]])]), true) := by
  rfl

/-- C4 (amended): the desktop `requestScript`
(`ScriptGenerator.generate_scenario_script`) fails with a
`GenerationError`-style exception whenever no valid JSON object is found
in the response, or the parsed document lacks `situation`, or any of the
remaining required shapes is violated — equivalently, a successful
`_build_script` guarantees exactly two characters, a 4..8-line dialogue
and a string `situation` key.  The server variant
`OpenAIClient.generate_script` validates only JSON parsing and the
presence of the `dialogue` key: a document with no `dialogue` key fails,
while documents lacking `situation` or `characters[2]`, or with a
dialogue outside 4..8 lines, are accepted (see the counterexample). -/
theorem c4_theorem
    (parse : String → Option Json) (rand : Nat → Int)
    (response_text : String) (locA : Location) (e : String)
    (jB : Json) (locB : Location) (randB : Nat → Int)
    (jC : Json) (locC : Location) (randC : Nat → Int) (scriptC : Script)
    (sample : List Character → Nat → List Character)
    (backend : String → Except String String)
    (parseD : String → Option Json) (charactersD : List Character)
    (locD : Location) (c0 c1 : Character) (content : String) (dataD : Json)
    (ha : parse_json_response parse response_text = .error e)
    (hb : jB.lookupKey "situation" = none)
    (hc : build_script randC locC jC = .ok scriptC)
    (hd0 : (select_characters_for_location sample charactersD locD.id).get? 0
      = some c0)
    (hd1 : (select_characters_for_location sample charactersD locD.id).get? 1
      = some c1)
    (hdb : backend (buildServerPrompt locD
      (select_characters_for_location sample charactersD locD.id) c0 c1) =
      .ok content)
    (hdp : parseD content = some dataD)
    (hdd : dataD.lookupKey "dialogue" = none) :
    generate_scenario_script parse rand (.ok response_text) locA =
      .error ("Failed to generate script: " ++ e) ∧
    build_script randB locB jB = .error "KeyError: situation" ∧
    (scriptC.scenario.characters.length = 2 ∧
      4 ≤ scriptC.dialogue.length ∧ scriptC.dialogue.length ≤ 8 ∧
      jC.lookupKey "situation" = some (.str scriptC.scenario.situation)) ∧
    server_generate_script sample backend parseD charactersD locD =
      (.error "Script generation failed: KeyError dialogue", true) := by
  refine ⟨?_, ?_, ?_, ?_⟩
  · simp [generate_scenario_script, ha]
  · simp [build_script, hb]
  · unfold build_script at hc
    split at hc
    · simp at hc
    · rename_i situationJ hsit
      split at hc
      · simp at hc
      · rename_i situation hsitstr
        split at hc
        · simp at hc
        · rename_i charactersJ hchars
          split at hc
          · simp at hc
          · rename_i characters hcharstr
            split at hc
            · simp at hc
            · rename_i scenario hscen
              split at hc
              · simp at hc
              · rename_i dialogueJ hdialkey
                split at hc
                · simp at hc
                · rename_i lineObjs hlines
                  split at hc
                  · simp at hc
                  · rename_i dialogue hdial
                    unfold mkScript at hc
                    split at hc
                    · rename_i hbounds
                      unfold mkScenario at hscen
                      split at hscen
                      · rename_i hlen2
                        simp only [Except.ok.injEq] at hc hscen
                        subst hc
                        subst hscen
                        have hsitJ : situationJ = .str situation := by
                          cases situationJ <;>
                            simp_all [Json.asString]
                        refine ⟨hlen2, hbounds.1, hbounds.2, ?_⟩
                        rw [hsit, hsitJ]
                      · simp at hscen
                    · simp at hc
  · simp only [server_generate_script, hd0, hd1]
    rw [hdb]
    simp only [hdp]
    rw [lookupKey_setField_ne dataD "characters" "dialogue" _ (by decide),
      hdd]

/-- Witness for C4: concrete inputs for all four conjuncts — a brace-free
response, a document with no `situation`, a fully valid document with its
resulting script, and a server run whose parsed document lacks
`dialogue`. -/
theorem c4_witness :
    generate_scenario_script (fun _ => none) (fun _ => 0)
        (.ok "geen json hier") demoLoc =
      .error
        "Failed to generate script: No JSON object found in response" ∧
    build_script (fun _ => 0) demoLoc (Json.obj []) =
      .error "KeyError: situation" ∧
    (validDocScript.scenario.characters.length = 2 ∧
      4 ≤ validDocScript.dialogue.length ∧
      validDocScript.dialogue.length ≤ 8 ∧
      validDoc.lookupKey "situation" =
        some (.str validDocScript.scenario.situation)) ∧
    server_generate_script sampleTake (fun _ => .ok "ruw")
        (fun _ => some (Json.obj [("situation", .str "s")]))
        [charAnna, charBram] demoLoc =
      (.error "Script generation failed: KeyError dialogue", true) :=
  c4_theorem (fun _ => none) (fun _ => 0) "geen json hier" demoLoc
    "No JSON object found in response" (Json.obj []) demoLoc (fun _ => 0)
    validDoc demoLoc (fun _ => 0) validDocScript sampleTake
    (fun _ => .ok "ruw") (fun _ => some (Json.obj [("situation", .str "s")]))
    [charAnna, charBram] demoLoc charAnna charBram "ruw"
    (Json.obj [("situation", .str "s")])
    (by rfl) (by rfl) (by rfl) (by rfl) (by rfl) (by rfl) (by rfl) (by rfl)

/-! ## C5 — voice assignment for dialogue lines -/

/-- A dialogue-line object carrying a string speaker and a string text,
the shape on which `_build_script` builds a pydantic `DialogueLine`. -/
def lineWF (line : Json) : Bool :=
  line.isObj &&
  ((line.lookupKey "speaker").bind Json.asString).isSome &&
  ((line.lookupKey "text").bind Json.asString).isSome

/-- C5 counterexample.  The claim states that `requestScript` assigns
voice 0 to the first character name and 1 to the second by position, in
both variants.  The server variant `OpenAIClient.generate_script` instead
maps each name to that character's roster `voice_id`: with the roster
entry Anna carrying `voice_id = 1` and selected first, the line spoken by
the first character name receives voice 1, not 0. -/
theorem c5_counterexample :
    server_generate_script sampleTake (fun _ => .ok "raw")
      (fun _ => some (Json.obj [("situation", .str "In de bakkerij"),
        ("characters", .arr [.str "Anna", .str "Bram"]),
        ("dialogue", .arr
          [.obj [("speaker", .str "Anna"), ("text", .str "Hallo")]])]))
      [charAnna, charBram] demoLoc =
    (.ok (Json.obj [("situation", .str "In de bakkerij"),
      ("characters", .arr
        [.obj [("id", .str "anna"), ("name", .str "Anna"),
               ("voice_id", .num 1)],
         .obj [("id", .str "bram"), ("name", .str "Bram"),
               ("voice_id", .num 0)]]),
      ("dialogue", .arr [.obj [("speaker", .str "Anna"),
        ("text", .str "Hallo"), ("voice_id", .num 1)]])]), true) := by
  rfl

/-- The desktop dialogue loop never fails on well-formed lines, whatever
the speaker names are: unknown speakers receive the `randint` draw, which
is within the pydantic bounds. -/
theorem buildDialogue_ok (rand : Nat → Int) (c0 c1 : String)
    (hrand : ∀ k, 0 ≤ rand k ∧ rand k ≤ 1) :
    ∀ (lines : List Json) (i : Nat), (∀ l ∈ lines, lineWF l = true) →
      ∃ dl, buildDialogue rand c0 c1 lines i = .ok dl := by
  intro lines
  induction lines with
  | nil => exact fun i _ => ⟨[], rfl⟩
  | cons line rest ih =>
    intro i h
    have hline := h line (by simp)
    have hrest : ∀ l ∈ rest, lineWF l = true :=
      fun l hl => h l (by simp [hl])
    obtain ⟨dl, hdl⟩ := ih (i + 1) hrest
    cases line with
    | obj fields =>
      simp only [lineWF, Json.isObj, Bool.and_eq_true, Option.isSome_iff_exists]
        at hline
      obtain ⟨⟨-, sp, hsp⟩, tx, htx⟩ := hline
      have hv : 0 ≤ voiceFor c0 c1 sp (rand i) ∧
          voiceFor c0 c1 sp (rand i) ≤ 1 := by
        unfold voiceFor
        by_cases h1 : sp = c1
        · rw [if_pos h1]
          exact ⟨by decide, by decide⟩
        · rw [if_neg h1]
          by_cases h0 : sp = c0
          · rw [if_pos h0]
            exact ⟨by decide, by decide⟩
          · rw [if_neg h0]
            exact hrand i
      refine ⟨⟨sp, tx, voiceFor c0 c1 sp (rand i)⟩ :: dl, ?_⟩
      simp only [buildDialogue]
      rw [hsp, htx]
      simp only [mkDialogueLine, if_pos hv]
      rw [hdl]
    | null => simp [lineWF, Json.isObj] at hline
    | bool b => simp [lineWF, Json.isObj] at hline
    | num n => simp [lineWF, Json.isObj] at hline
    | str s => simp [lineWF, Json.isObj] at hline
    | arr elems => simp [lineWF, Json.isObj] at hline

/-- C5 (amended): the desktop `_build_script` assigns voices positionally
— with distinct character names, a line spoken by the first name gets
voice 0, by the second name voice 1, and by an unknown name the
`random.randint(0, 1)` draw — and never fails on well-formed lines.  The
server `generate_script` instead assigns each character name its roster
`voice_id` (through the name-to-voice dict), defaulting unknown speakers
to voice 0, also without failing. -/
theorem c5_theorem (c0 c1 : String) (d : Int) (s : String)
    (rand : Nat → Int) (ca cb : String) (lines : List Json) (i : Nat)
    (vmap : List (String × Int)) (fields : List (String × Json))
    (sp : String)
    (hne : c0 ≠ c1) (hs0 : s ≠ c0) (hs1 : s ≠ c1)
    (hrand : ∀ k, 0 ≤ rand k ∧ rand k ≤ 1)
    (hwf : ∀ l ∈ lines, lineWF l = true)
    (hsp : (Json.obj fields).lookupKey "speaker" = some (.str sp)) :
    voiceFor c0 c1 c0 d = 0 ∧
    voiceFor c0 c1 c1 d = 1 ∧
    voiceFor c0 c1 s d = d ∧
    (∃ dl, buildDialogue rand ca cb lines i = .ok dl) ∧
    setLineVoice vmap (.obj fields) =
      .ok ((Json.obj fields).setField "voice_id"
        (.num (pyDictGet vmap sp 0))) := by
  refine ⟨?_, ?_, ?_, buildDialogue_ok rand ca cb hrand lines i hwf, ?_⟩
  · simp [voiceFor, hne]
  · simp [voiceFor]
  · simp [voiceFor, hs0, hs1]
  · simp only [setLineVoice]
    rw [hsp]

/-- Witness for C5: concrete names for the positional map, a concrete
well-formed one-line dialogue with an unknown speaker, and a concrete
server line whose speaker is in the roster map. -/
theorem c5_witness :
    voiceFor "Anna" "Bram" "Anna" 0 = 0 ∧
    voiceFor "Anna" "Bram" "Bram" 0 = 1 ∧
    voiceFor "Anna" "Bram" "Chris" 0 = 0 ∧
    (∃ dl, buildDialogue (fun _ => 1) "X" "Y"
      [.obj [("speaker", .str "Q"), ("text", .str "Hoi")]] 0 = .ok dl) ∧
    setLineVoice [("Anna", 1)]
        (.obj [("speaker", .str "Anna"), ("text", .str "Hoi")]) =
      .ok ((Json.obj [("speaker", .str "Anna"), ("text", .str "Hoi")]).setField
        "voice_id" (.num (pyDictGet [("Anna", 1)] "Anna" 0))) :=
  c5_theorem "Anna" "Bram" 0 "Chris" (fun _ => 1) "X" "Y"
    [.obj [("speaker", .str "Q"), ("text", .str "Hoi")]] 0
    [("Anna", 1)] [("speaker", .str "Anna"), ("text", .str "Hoi")] "Anna"
    (by decide) (by decide) (by decide)
    (by intro k; simp)
    (by intro l hl; simp at hl; subst hl; rfl) (by rfl)

/-! ## C6 — progress query and the Finished state -/

/-- C6 counterexample.  The claim states that after the last artifact of
the sequence reports finished, the progress query reads 1.0.  In
`AudioPlayer`, once `update_sequence_playback` observes the last file
finished it clears `is_playing_sequence`, and `get_playback_progress`
then returns `None`, not 1.0 (1.0 is only read while the last artifact is
still playing). -/
theorem c6_counterexample :
    get_playback_progress
      (update_sequence_playback demoFs
        (procFinishes
          (play_sequence demoFs ["intro.aiff"] 500 initPlayer).2)).2 =
      none ∧
    get_playback_progress
      (update_sequence_playback demoFs
        (procFinishes
          (play_sequence demoFs ["intro.aiff"] 500 initPlayer).2)).2 ≠
      some 1 := by
  exact ⟨rfl, by decide⟩

/-- C6 (amended): while Playing (`is_playing_sequence` set, nonempty
sequence) the progress query returns `(index+1)/length` — in particular
it reads 1.0 while the last artifact is playing; when the sequencer is
not playing the progress query returns `None`; and once the last
artifact reports finished, the polled update returns `False`, drops the
playing flag (the Finished state) with the index advanced past the end,
after which the progress query reads `None`, not 1.0. -/
theorem c6_theorem (fs : String → Bool) (stA stB stC stD : PlayerState)
    (p : Proc)
    (hA1 : stA.is_playing_sequence = true)
    (hA2 : stA.current_sequence ≠ [])
    (hB : stB.is_playing_sequence = false)
    (hC1 : stC.is_playing_sequence = true)
    (hC2 : stC.current_process = some p) (hC3 : p.finished = true)
    (hC4 : stC.current_sequence.length ≤ stC.current_index + 1)
    (hD1 : stD.is_playing_sequence = true)
    (hD2 : stD.current_index + 1 = stD.current_sequence.length)
    (hD3 : stD.current_sequence ≠ []) :
    get_playback_progress stA =
      some ((stA.current_index + 1 : Rat) /
        stA.current_sequence.length) ∧
    get_playback_progress stB = none ∧
    ((update_sequence_playback fs stC).1 = false ∧
      (update_sequence_playback fs stC).2.is_playing_sequence = false ∧
      (update_sequence_playback fs stC).2.current_index =
        stC.current_index + 1 ∧
      get_playback_progress (update_sequence_playback fs stC).2 = none) ∧
    get_playback_progress stD = some 1 := by
  refine ⟨?_, ?_, ?_, ?_⟩
  · simp [get_playback_progress, hA1, hA2]
  · simp [get_playback_progress, hB]
  · simp [update_sequence_playback, hC1, hC2, hC3, hC4,
      get_playback_progress]
  · have hlen : stD.current_sequence.length ≠ 0 :=
      fun h => hD3 (List.length_eq_zero.mp h)
    have hcast : ((stD.current_index : Rat) + 1) =
        (stD.current_sequence.length : Rat) := by
      exact_mod_cast hD2
    have hcond : ¬((!stD.is_playing_sequence) = true ∨
        stD.current_sequence.isEmpty = true) := by
      simp [hD1, hD3]
    unfold get_playback_progress
    rw [if_neg hcond, hcast, div_self (Nat.cast_ne_zero.mpr hlen)]

/-- Witness for C6: a two-file sequence at its first file (progress 1/2),
the idle initial state, a one-file sequence whose file just finished, and
a two-file sequence playing its last file (progress 1.0). -/
theorem c6_witness :
    get_playback_progress
      ⟨["a.aiff", "b.aiff"], 0, true, 500, some ⟨"a.aiff", false⟩⟩ =
      some ((1 : Rat) / 2) ∧
    get_playback_progress initPlayer = none ∧
    ((update_sequence_playback demoFs
        ⟨["a.aiff"], 0, true, 500, some ⟨"a.aiff", true⟩⟩).1 = false ∧
      (update_sequence_playback demoFs
        ⟨["a.aiff"], 0, true, 500, some ⟨"a.aiff", true⟩⟩).2.is_playing_sequence
        = false ∧
      (update_sequence_playback demoFs
        ⟨["a.aiff"], 0, true, 500, some ⟨"a.aiff", true⟩⟩).2.current_index
        = 0 + 1 ∧
      get_playback_progress (update_sequence_playback demoFs
        ⟨["a.aiff"], 0, true, 500, some ⟨"a.aiff", true⟩⟩).2 = none) ∧
    get_playback_progress
      ⟨["a.aiff", "b.aiff"], 1, true, 500, some ⟨"b.aiff", false⟩⟩ =
      some 1 := by
  have h := c6_theorem demoFs
    ⟨["a.aiff", "b.aiff"], 0, true, 500, some ⟨"a.aiff", false⟩⟩
    initPlayer
    ⟨["a.aiff"], 0, true, 500, some ⟨"a.aiff", true⟩⟩
    ⟨["a.aiff", "b.aiff"], 1, true, 500, some ⟨"b.aiff", false⟩⟩
    ⟨"a.aiff", true⟩ rfl (by decide) rfl rfl rfl rfl (by decide) rfl rfl
    (by decide)
  exact ⟨by simpa using h.1, h.2.1, h.2.2.1, h.2.2.2⟩

/-! ## C7 — all-or-nothing validation in playSequence -/

/-- When the validation loop of `play_sequence` raises nothing, every
file in the list exists. -/
theorem firstMissing_none (fs : String → Bool) :
    ∀ l : List String, firstMissing fs l = none → ∀ x ∈ l, fs x = true := by
  intro l
  induction l with
  | nil => simp
  | cons a rest ih =>
    intro h x hx
    unfold firstMissing at h
    by_cases ha : fs a
    · rw [if_pos ha] at h
      rcases List.mem_cons.mp hx with rfl | hx'
      · exact ha
      · exact ih h x hx'
    · rw [if_neg ha] at h
      exact absurd h (by simp)

/-- C7: `play_sequence` called on the empty list returns `False` with the
state untouched; called with any missing file it raises
`FileNotFoundError` naming the first missing path, before any state
change and before starting any audio; and only when every file exists
does it record the sequence, reset the index to 0, store the pause,
raise the playing flag and start the first artifact. -/
theorem c7_theorem (fs : String → Bool) (pause : Nat)
    (st1 st2 st3 : PlayerState) (paths2 paths3 : List String) (p : String)
    (h2 : firstMissing fs paths2 = some p)
    (h3 : firstMissing fs paths3 = none) (h3n : paths3 ≠ []) :
    play_sequence fs [] pause st1 = (.ok false, st1) ∧
    play_sequence fs paths2 pause st2 =
      (.error ("Audio file not found: " ++ p), st2) ∧
    play_sequence fs paths3 pause st3 =
      (.ok true, ⟨paths3, 0, true, pause, some ⟨paths3.headD "", false⟩⟩)
    := by
  refine ⟨rfl, ?_, ?_⟩
  · have hne : paths2.isEmpty = false := by
      cases paths2 with
      | nil => simp [firstMissing] at h2
      | cons a l => rfl
    simp [play_sequence, hne, h2]
  · have hne : paths3.isEmpty = false := by
      cases paths3 with
      | nil => exact absurd rfl h3n
      | cons a l => rfl
    have hhead : fs (paths3.head?.getD "") = true := by
      have hall := firstMissing_none fs paths3 h3
      cases paths3 with
      | nil => exact absurd rfl h3n
      | cons a l => exact hall a (by simp)
    simp [play_sequence, hne, h3, play_audio, hhead]

/-- Witness for C7: a file system where only `missing.aiff` is absent;
the empty call, a call on the missing file, and a call on an existing
file. -/
theorem c7_witness :
    play_sequence (fun s => s != "missing.aiff") [] 500 initPlayer =
      (.ok false, initPlayer) ∧
    play_sequence (fun s => s != "missing.aiff") ["missing.aiff"] 500
        initPlayer =
      (.error ("Audio file not found: " ++ "missing.aiff"), initPlayer) ∧
    play_sequence (fun s => s != "missing.aiff") ["a.aiff"] 500
        initPlayer =
      (.ok true, ⟨["a.aiff"], 0, true, 500,
        some ⟨["a.aiff"].headD "", false⟩⟩) :=
  c7_theorem (fun s => s != "missing.aiff") 500 initPlayer initPlayer
    initPlayer ["missing.aiff"] ["a.aiff"] "missing.aiff" (by rfl) (by rfl)
    (by decide)

/-! ## C8 — location selection and the exclusion policy -/

/-- C8: with an identifier given, the endpoint looks the location up and
fails with the 404 `NotFoundError` response when it is absent; with none
given, the choice is drawn from the pool excluding `excludeLocationId` —
whatever index `random.choice` draws, with distinct identifiers and a
pool of at least two the excluded identifier is never returned, and on a
pool of one the exclusion is ignored and the sole location returned. -/
theorem c8_theorem (choose : List Location → Nat)
    (locationsA : List Location) (lidA : String) (locA : Location)
    (exA : Option String)
    (locationsB : List Location) (lidB : String) (exB : Option String)
    (locationsC : List Location) (exC : String) (locC : Location)
    (locD : Location) (exD : Option String)
    (hA0 : lidA ≠ "")
    (hA : locationsA.find? (fun loc => loc.id = lidA) = some locA)
    (hB0 : lidB ≠ "")
    (hB : locationsB.find? (fun loc => loc.id = lidB) = none)
    (hC0 : (locationsC.map Location.id).Nodup)
    (hC1 : 2 ≤ locationsC.length)
    (hC : select_location choose locationsC none (some exC) = .ok locC) :
    select_location choose locationsA (some lidA) exA = .ok locA ∧
    select_location choose locationsB (some lidB) exB =
      .error "Location not found" ∧
    locC.id ≠ exC ∧
    select_location choose [locD] none exD = .ok locD := by
  refine ⟨?_, ?_, ?_, ?_⟩
  · simp [select_location, hA0, hA]
  · simp [select_location, hB0, hB]
  · have hav : locationsC.filter (fun loc => some loc.id != some exC)
        ≠ [] := by
      intro hnil
      have hall : ∀ loc ∈ locationsC, loc.id = exC := by
        intro loc hloc
        have hmem := List.filter_eq_nil_iff.mp hnil loc hloc
        simpa using hmem
      match locationsC, hC0, hC1, hall with
      | x :: y :: t, hC0, hC1, hall =>
        have hx : x.id = exC := hall x (by simp)
        have hy : y.id = exC := hall y (by simp)
        have hxy : x.id ≠ y.id := by
          simp only [List.map_cons, List.nodup_cons] at hC0
          intro hxy
          exact hC0.1 (by simp [hxy])
        exact hxy (hx.trans hy.symm)
    simp only [select_location, select_location_random] at hC
    have hne : (locationsC.filter
        (fun loc => some loc.id != some exC)).isEmpty = false := by
      cases hfe : locationsC.filter (fun loc => some loc.id != some exC)
        with
      | nil => exact absurd hfe hav
      | cons a l => rfl
    rw [hne] at hC
    simp only [Bool.false_eq_true, if_false] at hC
    cases hget : (locationsC.filter
        (fun loc => some loc.id != some exC)).get?
        (choose (locationsC.filter (fun loc => some loc.id != some exC)) %
          (locationsC.filter
            (fun loc => some loc.id != some exC)).length) with
    | none => rw [hget] at hC; exact absurd hC (by simp)
    | some loc =>
      rw [hget] at hC
      simp only [Except.ok.injEq] at hC
      subst hC
      have hmem := List.get?_mem hget
      have := (List.mem_filter.mp hmem).2
      simpa using this
  · unfold select_location select_location_random
    by_cases hd : (some locD.id != exD) = true
    · simp [List.filter, hd, Nat.mod_one]
    · simp [List.filter, hd, Nat.mod_one]

/-- Witness for C8: a two-location pool for lookup and exclusion, an
unknown identifier for the 404 case, and a singleton pool whose sole
identifier is excluded. -/
theorem c8_witness :
    select_location (fun _ => 0) [demoLoc, demoLoc2]
        (some "supermarkt_west") none = .ok demoLoc2 ∧
    select_location (fun _ => 0) [demoLoc] (some "onbekend") none =
      .error "Location not found" ∧
    demoLoc2.id ≠ "bakkerij_centrum" ∧
    select_location (fun _ => 0) [demoLoc] none
        (some "bakkerij_centrum") = .ok demoLoc :=
  c8_theorem (fun _ => 0) [demoLoc, demoLoc2] "supermarkt_west" demoLoc2
    none [demoLoc] "onbekend" none [demoLoc, demoLoc2] "bakkerij_centrum"
    demoLoc2 demoLoc (some "bakkerij_centrum") (by decide) (by rfl)
    (by decide) (by rfl) (by decide) (by decide) (by rfl)

/-! ## C9 — stop() resets the sequencer -/

/-- C9 counterexample.  The claim states that `stop()` clears both the
recorded sequence and the position index.  `AudioPlayer.stop_audio`
resets the index and the playing flag but leaves `current_sequence` as it
was, so the recorded sequence is not cleared. -/
theorem c9_counterexample :
    (stop_audio ⟨["a.aiff"], 0, true, 500,
      some ⟨"a.aiff", false⟩⟩).current_sequence = ["a.aiff"] ∧
    (stop_audio ⟨["a.aiff"], 0, true, 500,
      some ⟨"a.aiff", false⟩⟩).current_sequence ≠ [] := by
  exact ⟨rfl, by decide⟩

/-- C9 (amended): `stop()` called from any state terminates a running
audio process, drops the playing flag and resets the position index to 0
— returning the sequencer to Idle, after which the progress query is
undefined — but it does not clear the recorded sequence list, which
keeps the last sequence. -/
theorem c9_theorem (st : PlayerState) :
    (stop_audio st).is_playing_sequence = false ∧
    (stop_audio st).current_index = 0 ∧
    (stop_audio st).current_sequence = st.current_sequence ∧
    get_playback_progress (stop_audio st) = none ∧
    ∀ p, st.current_process = some p → p.finished = false →
      (stop_audio st).current_process = none := by
  have hbase : (stop_audio st).is_playing_sequence = false ∧
      (stop_audio st).current_index = 0 ∧
      (stop_audio st).current_sequence = st.current_sequence := by
    unfold stop_audio
    cases st.current_process with
    | none => exact ⟨rfl, rfl, rfl⟩
    | some p =>
      by_cases hf : p.finished
      · simp [hf]
      · simp [hf]
  refine ⟨hbase.1, hbase.2.1, hbase.2.2, ?_, ?_⟩
  · have hflag : (!(stop_audio st).is_playing_sequence) = true := by
      rw [hbase.1]
      rfl
    unfold get_playback_progress
    rw [if_pos (Or.inl hflag)]
  · intro p hp hf
    unfold stop_audio
    rw [hp]
    simp [hf]

/-- Witness for C9: stopping a concrete playing state with a running
process. -/
theorem c9_witness :
    (stop_audio ⟨["a.aiff"], 2, true, 500,
      some ⟨"a.aiff", false⟩⟩).is_playing_sequence = false ∧
    (stop_audio ⟨["a.aiff"], 2, true, 500,
      some ⟨"a.aiff", false⟩⟩).current_index = 0 ∧
    (stop_audio ⟨["a.aiff"], 2, true, 500,
      some ⟨"a.aiff", false⟩⟩).current_sequence = ["a.aiff"] ∧
    get_playback_progress (stop_audio ⟨["a.aiff"], 2, true, 500,
      some ⟨"a.aiff", false⟩⟩) = none ∧
    (stop_audio ⟨["a.aiff"], 2, true, 500,
      some ⟨"a.aiff", false⟩⟩).current_process = none := by
  have h := c9_theorem ⟨["a.aiff"], 2, true, 500, some ⟨"a.aiff", false⟩⟩
  exact ⟨h.1, h.2.1, h.2.2.1, h.2.2.2.1,
    h.2.2.2.2 ⟨"a.aiff", false⟩ rfl rfl⟩

/-! ## C10 — empty roster makes the server script path always fail -/

/-- C10: with the empty roster the web server constructs (no
`characters_data` argument), `generate_script` selects no characters,
and the prompt construction indexes the empty list: an `IndexError` is
raised for every location, before the `try` block and hence before any
backend call; consequently the scenario endpoint driving it can never
return a success. -/
theorem c10_theorem (sample : List Character → Nat → List Character)
    (backend : String → Except String String)
    (parse : String → Option Json) (location : Location)
    (hsample : sample [] 0 = []) :
    server_generate_script sample backend parse [] location =
      (.error "IndexError: list index out of range", false) ∧
    ∀ (choose : List Location → Nat)
      (genAudio : Json → Except String (List String))
      (locations : List Location) (lid ex : Option String),
      ∃ e, generate_scenario_endpoint choose
        (fun loc => (server_generate_script sample backend parse [] loc).1)
        genAudio locations lid ex = .error e := by
  have hsel : ∀ lid : String,
      select_characters_for_location sample [] lid = [] := by
    intro lid
    unfold select_characters_for_location
    simpa using hsample
  constructor
  · simp only [server_generate_script, hsel]
    rfl
  · intro choose genAudio locations lid ex
    unfold generate_scenario_endpoint
    cases hs : select_location choose locations lid ex with
    | error e =>
      exact ⟨e, rfl⟩
    | ok loc =>
      refine ⟨"IndexError: list index out of range", ?_⟩
      have h1 : (server_generate_script sample backend parse [] loc).1 =
          .error "IndexError: list index out of range" := by
        simp only [server_generate_script, hsel]
        rfl
      simp [h1]

/-- Witness for C10: the empty roster with a concrete sampler, backend
and location. -/
theorem c10_witness :
    server_generate_script sampleTake (fun _ => .ok "raw")
      (fun _ => none) [] demoLoc =
    (.error "IndexError: list index out of range", false) :=
  (c10_theorem sampleTake (fun _ => .ok "raw") (fun _ => none) demoLoc
    (by rfl)).1

end TaalQuest
